import Mathlib

/-!
Shallow embedding of the QubicPay-AI fraud-detection engine
(`backend/ai-verification/src`): the four signal analyzers
(`FollowerAuthenticityChecker`, `EngagementQualityChecker`,
`VelocityChecker`, `GeoLocationChecker`) and the `FraudDetector`
orchestrator, together with theorems settling the specification claims.

Modelling conventions:
- Python floats are modelled as `ℚ`; `round(x, 2)` is `round2`.
- `datetime` instants are modelled as `ℚ` (seconds since an epoch);
  `datetime.now()` becomes an explicit `now : ℚ` parameter.
- Python dict fields read with `.get(key, default)` are `Option` fields,
  read with `Option.getD`.
- Code that can raise (the geo analyzer divides by
  `len(followers) + len(comments)` with no guard) returns `Option`:
  `none` models the `ZeroDivisionError`.
- Human-readable flag strings are modelled by the tags of the emitting
  sites (inductive `Flag`); the interpolated numbers never influence any
  control flow in the source.
-/

/- Batteries seals the rational-number arithmetic against unfolding;
restore reducibility so that `decide` can evaluate the embedding on the
concrete inputs of the claims. -/
attribute [local semireducible] Rat.add Rat.mul Rat.inv Rat.sub

namespace QubicPay

/-- `round(x, 2)` on `ℚ`: round to the nearest multiple of `1/100`
(ties up; no claim depends on tie behaviour), computed with the
executable `Rat.floor`. -/
def round2 (q : ℚ) : ℚ := (Rat.floor (q * 100 + 1 / 2) : ℤ) / 100

/-! ### Character and string helpers (models of Python `str` operations) -/

/-- ASCII lowercase letter, the regex class `[a-z]`. -/
def isLowerAlpha (c : Char) : Bool := 'a' ≤ c && c ≤ 'z'

/-- Decimal digit, the regex class `\d` (ASCII fragment). -/
def isDigitCh (c : Char) : Bool := '0' ≤ c && c ≤ '9'

/-- The regex class `\w` (ASCII fragment): alphanumeric or underscore. -/
def isWordChar (c : Char) : Bool := c.isAlphanum || c == '_'

/-- Whitespace, as used by Python `str.strip` / `str.split`. -/
def isSpaceCh (c : Char) : Bool := c.isWhitespace

/-- Does `pat` occur at the head of `s`? -/
def listStartsWith : List Char → List Char → Bool
  | [], _ => true
  | _ :: _, [] => false
  | a :: as, b :: bs => a == b && listStartsWith as bs

/-- Python `pat in s`: contiguous-substring containment. -/
def containsSub (pat : List Char) : List Char → Bool
  | [] => pat.isEmpty
  | c :: cs => listStartsWith pat (c :: cs) || containsSub pat cs

/-- Python `str.lower()` (character-wise). -/
def lowerStr (s : String) : String := String.mk (s.toList.map Char.toLower)

/-- Python `str.strip()`: remove leading and trailing whitespace. -/
def stripStr (s : String) : String :=
  String.mk ((((s.toList.dropWhile isSpaceCh).reverse).dropWhile isSpaceCh).reverse)

/-- Number of whitespace-separated words, Python `len(s.split())`. -/
def wordCountAux : List Char → Bool → Nat
  | [], _ => 0
  | c :: cs, inWord =>
    if isSpaceCh c then wordCountAux cs false
    else (if inWord then 0 else 1) + wordCountAux cs true

def wordCount (s : String) : Nat := wordCountAux s.toList false

/-- Substring containment on `String`s (Python `pat in s`). -/
def strContains (s pat : String) : Bool := containsSub pat.toList s.toList

/-! ### Configuration (`config.py`), immutable process-wide data -/

def weightFollower : ℚ := 30 / 100
def weightEngagement : ℚ := 35 / 100
def weightVelocity : ℚ := 20 / 100
def weightGeo : ℚ := 15 / 100

/-- `Config.THRESHOLDS['overall_pass_score']`. -/
def passThreshold : ℚ := 95

/-- `velocity_anomaly_max` (the `.get` in `VelocityChecker.__init__`
falls back to the default `2.5`). -/
def anomalyThreshold : ℚ := 5 / 2

/-- `Config.FRAUD_DETECTION['suspicious_locations']`. -/
def suspiciousLocations : List String := ["Unknown", "Bot Farm", "Multiple"]

/-- `Config.FRAUD_DETECTION['spam_comment_phrases']`, already lowercase as
`EngagementQualityChecker.__init__` lowercases them. -/
def spamPhrases : List String :=
  ["great post", "nice", "cool", "awesome",
   "â¤ï¸", "ðŸ”¥", "ðŸ‘", "ðŸ˜",
   "check my bio", "follow me", "dm me"]

/-! ### Bot-username regexes (`re.match`, patterns anchored `^...$`)

`bot_username_patterns = [r'^[a-z]+\d{4,}$', r'^\d+[a-z]+\d+$', r'^user\d{6,}$']`.
The character classes of adjacent pieces are disjoint, so the regex match
is equivalent to the greedy split implemented here. -/

/-- `^[a-z]+\d{4,}$`. -/
def botPat1 (s : String) : Bool :=
  let cs := s.toList
  let letters := cs.takeWhile isLowerAlpha
  let rest := cs.dropWhile isLowerAlpha
  !letters.isEmpty && decide (4 ≤ rest.length) && rest.all isDigitCh

/-- `^\d+[a-z]+\d+$`. -/
def botPat2 (s : String) : Bool :=
  let cs := s.toList
  let d1 := cs.takeWhile isDigitCh
  let rest := cs.dropWhile isDigitCh
  let letters := rest.takeWhile isLowerAlpha
  let d2 := rest.dropWhile isLowerAlpha
  !d1.isEmpty && !letters.isEmpty && !d2.isEmpty && d2.all isDigitCh

/-- `^user\d{6,}$`. -/
def botPat3 (s : String) : Bool :=
  let cs := s.toList
  listStartsWith "user".toList cs &&
    (let rest := cs.drop 4
     decide (6 ≤ rest.length) && rest.all isDigitCh)

/-- `any(pattern.match(username) for pattern in self.bot_patterns)`. -/
def matchesBotPattern (s : String) : Bool := botPat1 s || botPat2 s || botPat3 s

/-- `^user\d{5,}$`, the comment bot-username regex in
`EngagementQualityChecker._check_bot_patterns`. -/
def commentBotUsername (s : String) : Bool :=
  let cs := s.toList
  listStartsWith "user".toList cs &&
    (let rest := cs.drop 4
     decide (5 ≤ rest.length) && rest.all isDigitCh)

/-! ### Data model -/

/-- A follower profile dict. Every field the code reads with `.get` is
optional; the `.getD` defaults in `checkBotSignals` mirror the code. -/
structure Follower where
  username : Option String := none
  has_profile_pic : Option Bool := none
  post_count : Option Int := none
  following_count : Option Int := none
  follower_count : Option Int := none
  bio_length : Option Int := none
  account_age_days : Option Int := none
  location : Option String := none
  deriving DecidableEq, Repr, Inhabited

/-- A comment dict (`text`, `username`, `timestamp`, `location`). -/
structure Comment where
  text : Option String := none
  username : Option String := none
  timestamp : Option ℚ := none
  location : Option String := none
  deriving DecidableEq, Repr, Inhabited

/-- The engagement dict (`likes`, `comments`, `shares`, `saves`). -/
structure Engagement where
  likes : Option Int := none
  comments : Option (List Comment) := none
  shares : Option Int := none
  saves : Option Int := none
  deriving DecidableEq, Repr, Inhabited

/-- The `post_data` dict consumed by `FraudDetector.detect`. -/
structure PostData where
  followers : Option (List Follower) := none
  engagement : Option Engagement := none
  historical_avg_engagement : Option ℚ := none
  post_timestamp : ℚ := 0
  influencer_location : Option String := none
  deriving DecidableEq, Repr, Inhabited

/-- Tags for the human-readable flag strings, one per emitting site. -/
inductive Flag
  | noFollowers
  | highBotPresence
  | manySuspicious
  | noComments
  | highDuplicates
  | highSpam
  | manyGeneric
  | multiCommenters
  | botUsernameComments
  | suspiciousTiming
  | anomalySpike
  | anomalyDrop
  | instantSpike
  | engagementDropoff
  | botFarmFollowers
  | botFarmEngagement
  | poorFollowerAlignment
  | poorEngagementAlignment
  | suspiciousConcentration
  deriving DecidableEq, Repr, Inhabited

/-! ### FollowerAuthenticityChecker (`models/follower_check.py`) -/

/-- One reason string appended by `_check_bot_signals`. -/
inductive BotReason
  | botUsernamePattern
  | noProfilePicture
  | zeroPosts
  | suspiciousFollowRatio
  | newAccountHighFollowing
  | noBio
  | suspiciousLocation
  deriving DecidableEq, Repr

structure BotSignals where
  is_definite_bot : Bool
  is_suspicious : Bool
  reasons : List BotReason
  deriving DecidableEq, Repr

/-- `FollowerAuthenticityChecker._check_bot_signals`. The running
assignments `signals['is_definite_bot'] = True` are collected as the
disjunction of the triggering checks; the final escalation re-reads
`len(signals['reasons'])`. -/
def checkBotSignals (f : Follower) : BotSignals :=
  let b1 := matchesBotPattern (f.username.getD "")
  let s2 := decide (f.has_profile_pic.getD true = false)
  let b3 := decide (f.post_count.getD 1 = 0)
  let s4 := decide (0 < f.following_count.getD 0 ∧ 0 < f.follower_count.getD 1 ∧
    (10 : ℚ) < (f.following_count.getD 0 : ℚ) / (f.follower_count.getD 1 : ℚ))
  let s5 := decide (f.account_age_days.getD 1000 < 30 ∧ 1000 < f.following_count.getD 0)
  let s6 := decide (f.bio_length.getD 1 = 0)
  let b7 := decide (f.location.getD "" ∈ suspiciousLocations)
  let reasons : List BotReason :=
    (if b1 then [.botUsernamePattern] else []) ++
    (if s2 then [.noProfilePicture] else []) ++
    (if b3 then [.zeroPosts] else []) ++
    (if s4 then [.suspiciousFollowRatio] else []) ++
    (if s5 then [.newAccountHighFollowing] else []) ++
    (if s6 then [.noBio] else []) ++
    (if b7 then [.suspiciousLocation] else [])
  { is_definite_bot := b1 || b3 || b7 || decide (3 ≤ reasons.length)
    is_suspicious := s2 || s4 || s5 || s6
    reasons := reasons }

/-- Result dict of `FollowerAuthenticityChecker.analyze`; the empty-input
branch omits the `total_analyzed` and `authenticity_percentage` keys. -/
structure FollowerResult where
  score : ℚ
  real_count : ℤ
  bot_count : ℤ
  suspicious_count : ℤ
  total_analyzed : Option ℤ
  authenticity_percentage : Option ℚ
  flags : List Flag
  deriving DecidableEq, Repr, Inhabited

/-- `FollowerAuthenticityChecker.analyze`. -/
def followerAnalyze (followers : List Follower) : FollowerResult :=
  if followers = [] then
    { score := 0, real_count := 0, bot_count := 0, suspicious_count := 0
      total_analyzed := none, authenticity_percentage := none
      flags := [.noFollowers] }
  else
    let total : ℕ := followers.length
    let botCount : ℕ := followers.countP (fun f => (checkBotSignals f).is_definite_bot)
    let suspCount : ℕ := followers.countP
      (fun f => !(checkBotSignals f).is_definite_bot && (checkBotSignals f).is_suspicious)
    let realCount : ℤ := (total : ℤ) - botCount - suspCount
    let authPct : ℚ := ((realCount : ℚ) / total) * 100
    let weightedScore : ℚ := (((realCount : ℚ) + (suspCount : ℚ) * (1 / 2)) / total) * 100
    let flags : List Flag :=
      (if (total : ℚ) * (3 / 10) < (botCount : ℚ) then [.highBotPresence] else []) ++
      (if (total : ℚ) * (2 / 10) < (suspCount : ℚ) then [.manySuspicious] else [])
    { score := round2 weightedScore
      real_count := realCount
      bot_count := botCount
      suspicious_count := suspCount
      total_analyzed := some total
      authenticity_percentage := some (round2 authPct)
      flags := flags }

/-! ### EngagementQualityChecker (`models/engagement_check.py`) -/

/-- `EngagementQualityChecker._is_spam`; `text` is already lowercased and
stripped by the caller. -/
def isSpam (text : String) : Bool :=
  spamPhrases.any (fun p => strContains text p) ||
  ["check my bio", "follow me", "dm me", "link in bio",
   "click here", "visit my", "free followers"].any (fun k => strContains text k) ||
  (let stripped := stripStr (String.mk (text.toList.filter (fun c => isWordChar c || isSpaceCh c)))
   decide (stripped.length < 3) && decide (3 < text.length))

/-- One generic-phrase word followed by zero or more `!`, the shape of the
anchored alternation regexes in `_is_generic`. -/
def phraseWithBangs (ws : List String) (text : String) : Bool :=
  ws.any (fun w =>
    listStartsWith w.toList text.toList &&
    (text.toList.drop w.toList.length).all (fun c => c == '!'))

/-- `EngagementQualityChecker._is_generic`. -/
def isGeneric (text : String) : Bool :=
  decide (text.length < 10) ||
  decide (wordCount text ≤ 2) ||
  phraseWithBangs ["nice", "cool", "awesome", "great", "amazing", "love it", "perfect"] text ||
  (["this is", "so"].any (fun a =>
    ["nice", "cool", "awesome", "great", "amazing"].any (fun b =>
      phraseWithBangs [a ++ " " ++ b] text))) ||
  phraseWithBangs ["love this", "love it"] text

/-- `EngagementQualityChecker._find_duplicates` followed by
`sum(duplicates.values())`: over the distinct texts, sum `count - 1` for
texts occurring more than once. -/
def findDuplicatesSum (texts : List String) : ℕ :=
  ((texts.dedup.filter (fun t => 1 < texts.count t)).map (fun t => texts.count t - 1)).sum

/-- `EngagementQualityChecker._check_bot_patterns` (flags only). -/
def checkBotPatternFlags (comments : List Comment) : List Flag :=
  if comments = [] then []
  else
    let usernames := comments.map (fun c => c.username.getD "")
    let distinctUsers := usernames.dedup
    let multiCommenters : ℕ :=
      (distinctUsers.filter (fun u => 2 < usernames.count u)).length
    let f1 : List Flag :=
      if (distinctUsers.length : ℚ) * (1 / 10) < (multiCommenters : ℚ)
      then [.multiCommenters] else []
    let botCommenters : ℕ := comments.countP (fun c => commentBotUsername (c.username.getD ""))
    let f2 : List Flag :=
      if (comments.length : ℚ) * (2 / 10) < (botCommenters : ℚ)
      then [.botUsernameComments] else []
    let f3 : List Flag :=
      if 10 ≤ comments.length then
        let timestamps := comments.filterMap Comment.timestamp
        match timestamps with
        | [] => []
        | t0 :: ts =>
          -- the code sorts and takes `timestamps[-1] - timestamps[0]`,
          -- i.e. the maximum minus the minimum
          let tmax := ts.foldl max t0
          let tmin := ts.foldl min t0
          let spanMinutes := (tmax - tmin) / 60
          if spanMinutes < 5 ∧ 20 < comments.length then [.suspiciousTiming] else []
      else []
    f1 ++ f2 ++ f3

/-- Result dict of `EngagementQualityChecker.analyze`; the empty-input
branch omits the `duplicate_count` and `quality_percentage` keys. -/
structure EngagementResult where
  score : ℚ
  authentic_count : ℤ
  spam_count : ℤ
  generic_count : ℤ
  duplicate_count : Option ℤ
  total_analyzed : ℤ
  quality_percentage : Option ℚ
  flags : List Flag
  deriving DecidableEq, Repr, Inhabited

/-- `comment_texts = [c.get('text', '').lower() for c in comments]`
(lowered but, unlike the classification input, not stripped). -/
def commentTextsOf (engagement : Engagement) : List String :=
  (engagement.comments.getD []).map (fun c => lowerStr (c.text.getD ""))

/-- The spam/generic classification input:
`comment.get('text', '').lower().strip()`. -/
def classInput (c : Comment) : String := stripStr (lowerStr (c.text.getD ""))

/-- `weighted_score = ((authentic_count + (generic_count * 0.4)) / total) * 100`
with the counts as computed in `EngagementQualityChecker.analyze`. -/
def engagementWeightedScore (engagement : Engagement) : ℚ :=
  let comments := engagement.comments.getD []
  let total : ℕ := comments.length
  let spamCount : ℕ := comments.countP (fun c => isSpam (classInput c))
  let genericCount : ℕ := comments.countP (fun c => !isSpam (classInput c) && isGeneric (classInput c))
  let authenticCount : ℤ := (total : ℤ) - spamCount - genericCount
  (((authenticCount : ℚ) + (genericCount : ℚ) * (4 / 10)) / total) * 100

/-- `EngagementQualityChecker.analyze`. -/
def engagementAnalyze (engagement : Engagement) : EngagementResult :=
  let comments := engagement.comments.getD []
  if comments = [] then
    { score := 50, authentic_count := 0, spam_count := 0, generic_count := 0
      duplicate_count := none, total_analyzed := 0, quality_percentage := none
      flags := [.noComments] }
  else
    let total : ℕ := comments.length
    let duplicateCount : ℕ := findDuplicatesSum (commentTextsOf engagement)
    let spamCount : ℕ := comments.countP (fun c => isSpam (classInput c))
    let genericCount : ℕ := comments.countP (fun c => !isSpam (classInput c) && isGeneric (classInput c))
    let authenticCount : ℤ := (total : ℤ) - spamCount - genericCount
    let qualityPct : ℚ := ((authenticCount : ℚ) / total) * 100
    let weightedScore' : ℚ :=
      if (total : ℚ) * (1 / 10) < (duplicateCount : ℚ)
      then engagementWeightedScore engagement - min 20 ((duplicateCount : ℚ) / total * 50)
      else engagementWeightedScore engagement
    let flags : List Flag :=
      (if (total : ℚ) * (1 / 10) < (duplicateCount : ℚ) then [.highDuplicates] else []) ++
      (if (total : ℚ) * (3 / 10) < (spamCount : ℚ) then [.highSpam] else []) ++
      (if (total : ℚ) * (4 / 10) < (genericCount : ℚ) then [.manyGeneric] else []) ++
      checkBotPatternFlags comments
    { score := round2 (max 0 (min 100 weightedScore'))
      authentic_count := authenticCount
      spam_count := spamCount
      generic_count := genericCount
      duplicate_count := some (duplicateCount : ℤ)
      total_analyzed := total
      quality_percentage := some (round2 qualityPct)
      flags := flags }

/-! ### VelocityChecker (`models/velocity_check.py`) -/

/-- `VelocityChecker._calculate_engagement_rate`. -/
def engagementRate (engagement : Engagement) : ℚ :=
  (engagement.likes.getD 0 : ℚ) + ((engagement.comments.getD []).length : ℚ) * 3 +
    (engagement.shares.getD 0 : ℚ) * 5 + (engagement.saves.getD 0 : ℚ) * 2

/-- `VelocityChecker._estimate_early_engagement`; a missing comment
timestamp defaults to `datetime.now()`, hence the `now` parameter. -/
def estimateEarlyEngagement (engagement : Engagement) (postTs now : ℚ) : ℚ :=
  let comments := engagement.comments.getD []
  if comments = [] then engagementRate engagement
  else
    let earlyCutoff := postTs + 7200
    let earlyComments : ℕ := comments.countP (fun c => c.timestamp.getD now < earlyCutoff)
    let totalComments : ℕ := comments.length
    let earlyRatio : ℚ :=
      if totalComments = 0 then 1 / 2 else (earlyComments : ℚ) / totalComments
    engagementRate engagement * earlyRatio / (2 / 10)

structure VelocityResult where
  score : ℚ
  current_velocity : ℚ
  historical_average : ℚ
  velocity_ratio : ℚ
  standard_deviations : ℚ
  time_since_post_hours : ℚ
  is_anomalous : Bool
  flags : List Flag
  deriving DecidableEq, Repr, Inhabited

/-- Hours elapsed since the post, floored at `1`
(`velocity_check.py` lines 24-27). -/
def hoursSincePost (postTimestamp now : ℚ) : ℚ :=
  let t0 := (now - postTimestamp) / 3600
  if t0 < 1 then 1 else t0

/-- `current_velocity = current_engagement / time_since_post`. -/
def currentVelocityOf (engagement : Engagement) (postTimestamp now : ℚ) : ℚ :=
  engagementRate engagement / hoursSincePost postTimestamp now

/-- The historical average actually used after the guard
`if historical_avg == 0: historical_avg = 1` (lines 33-34): only an
exactly-zero input is replaced. -/
def usedHistoricalAvg (historicalAvg : ℚ) : ℚ :=
  if historicalAvg = 0 then 1 else historicalAvg

/-- `VelocityChecker.analyze`; `now` models `datetime.now()` and all
instants are in seconds. -/
def velocityAnalyze (engagement : Engagement) (historicalAvg : ℚ)
    (postTimestamp now : ℚ) : VelocityResult :=
  let currentEngagement := engagementRate engagement
  let timeSincePost := hoursSincePost postTimestamp now
  let currentVelocity := currentVelocityOf engagement postTimestamp now
  let histAvg := usedHistoricalAvg historicalAvg
  let velocityQuot := currentVelocity / histAvg
  let stdDev := histAvg * (3 / 10)
  let deviation := if 0 < stdDev then |currentVelocity - histAvg| / stdDev else 0
  let isAnomalous : Bool := decide (anomalyThreshold < deviation)
  let anomalyFlags : List Flag :=
    if anomalyThreshold < deviation then
      if histAvg < currentVelocity then [.anomalySpike] else [.anomalyDrop]
    else []
  let instantFlags : List Flag :=
    if timeSincePost < 2 ∧ histAvg * 2 < currentVelocity then [.instantSpike] else []
  let dropoffFlags : List Flag :=
    if 12 < timeSincePost then
      if currentEngagement * (3 / 2) < estimateEarlyEngagement engagement postTimestamp now
      then [.engagementDropoff] else []
    else []
  let baseScore : ℚ :=
    if deviation ≤ 1 then 100
    else if deviation ≤ 2 then 80
    else if deviation ≤ 3 then 60
    else 40
  let score : ℚ :=
    if 6 < timeSincePost ∧ isAnomalous = false then min 100 (baseScore + 10) else baseScore
  { score := round2 score
    current_velocity := round2 currentVelocity
    historical_average := round2 histAvg
    velocity_ratio := round2 velocityQuot
    standard_deviations := round2 deviation
    time_since_post_hours := round2 timeSincePost
    is_anomalous := isAnomalous
    flags := anomalyFlags ++ instantFlags ++ dropoffFlags }

/-! ### GeoLocationChecker (`models/geo_location_check.py`) -/

/-- `self.bot_farm_countries` (hard-coded in `__init__`). -/
def botFarmCountries : List String := ["Unknown", "Bot Farm", "Multiple"]

/-- `self.expected_regions.get(influencer_location, [influencer_location])`. -/
def expectedRegionsFor (loc : String) : List String :=
  if loc = "United States" then ["United States", "Canada", "UK", "Australia"]
  else if loc = "United Kingdom" then ["UK", "United States", "Europe", "Australia"]
  else if loc = "Canada" then ["Canada", "United States", "UK"]
  else if loc = "Australia" then ["Australia", "UK", "United States", "New Zealand"]
  else if loc = "Europe" then ["UK", "Germany", "France", "Spain", "Italy"]
  else [loc]

/-- Result dict of `GeoLocationChecker._calculate_alignment`; the
`total == 0` branch omits the `total` key. -/
structure AlignmentResult where
  score : ℚ
  aligned_count : ℤ
  percentage : ℚ
  total : Option ℤ
  deriving DecidableEq, Repr, Inhabited

/-- `GeoLocationChecker._calculate_alignment`: the breakpoint score is
computed from the raw percentage, the returned `percentage` is rounded. -/
def calculateAlignment (locations : List String) (expected : List String) : AlignmentResult :=
  let total := locations.length
  if total = 0 then
    { score := 50, aligned_count := 0, percentage := 0, total := none }
  else
    let alignedCount : ℕ := locations.countP (fun loc => loc ∈ expected)
    let percentage : ℚ := ((alignedCount : ℚ) / total) * 100
    let score : ℚ :=
      if 80 ≤ percentage then 100
      else if 60 ≤ percentage then 90
      else if 40 ≤ percentage then 70
      else if 20 ≤ percentage then 50
      else 30
    { score := score, aligned_count := alignedCount
      percentage := round2 percentage, total := some total }

/-- `Counter.most_common(1)[0]` with the `('Unknown', 0)` default: the
first-inserted location attaining the maximal count. -/
def mostCommonLocation (locations : List String) : String × ℕ :=
  locations.foldl
    (fun best loc =>
      let c := locations.count loc
      if best.2 < c then (loc, c) else best)
    ("Unknown", 0)

/-- Result dict of `GeoLocationChecker.analyze`. The `top_follower_countries`
and `top_engagement_countries` entries (the two `most_common(5)` tallies,
used by nothing downstream) are not modelled. -/
structure GeoResult where
  score : ℚ
  follower_alignment : AlignmentResult
  engagement_alignment : AlignmentResult
  bot_farm_followers : ℤ
  bot_farm_engagement : ℤ
  influencer_location : String
  expected_regions : List String
  flags : List Flag
  deriving DecidableEq, Repr, Inhabited

/-- `GeoLocationChecker.analyze`. The bot-farm penalty divides by
`len(followers) + len(comments)` with no guard, so the empty-empty input
raises `ZeroDivisionError`: modelled as `none`. -/
def geoAnalyze (followers : List Follower) (engagement : Engagement)
    (influencerLocation : String) : Option GeoResult :=
  let followerLocations := followers.map (fun f => f.location.getD "Unknown")
  let comments := engagement.comments.getD []
  let engagementLocations := comments.map (fun c => c.location.getD "Unknown")
  let expected := expectedRegionsFor influencerLocation
  let followerAlignment := calculateAlignment followerLocations expected
  let engagementAlignment := calculateAlignment engagementLocations expected
  let botFarmFollowers : ℕ := followerLocations.countP (fun loc => loc ∈ botFarmCountries)
  let botFarmEngagement : ℕ := engagementLocations.countP (fun loc => loc ∈ botFarmCountries)
  let flags : List Flag :=
    (if (followers.length : ℚ) * (2 / 10) < (botFarmFollowers : ℚ)
     then [.botFarmFollowers] else []) ++
    (if (comments.length : ℚ) * (2 / 10) < (botFarmEngagement : ℚ)
     then [.botFarmEngagement] else []) ++
    (if followerAlignment.percentage < 50 then [.poorFollowerAlignment] else []) ++
    (if engagementAlignment.percentage < 50 then [.poorEngagementAlignment] else []) ++
    (let top := mostCommonLocation followerLocations
     if top.1 ∉ expected ∧ (followers.length : ℚ) * (5 / 10) < (top.2 : ℚ)
     then [.suspiciousConcentration] else [])
  if followers.length + comments.length = 0 then none
  else
    let overallScore0 := followerAlignment.score * (6 / 10) + engagementAlignment.score * (4 / 10)
    let botFarmPenalty :=
      min 30 (((botFarmFollowers : ℚ) + (botFarmEngagement : ℚ)) /
        ((followers.length : ℚ) + (comments.length : ℚ)) * 100)
    let overallScore := max 0 (overallScore0 - botFarmPenalty)
    some
      { score := round2 overallScore
        follower_alignment := followerAlignment
        engagement_alignment := engagementAlignment
        bot_farm_followers := botFarmFollowers
        bot_farm_engagement := botFarmEngagement
        influencer_location := influencerLocation
        expected_regions := expected
        flags := flags }

/-! ### FraudDetector (`fraud_detector.py`) -/

/-- One breakdown entry of the report. -/
structure SignalBreakdown (α : Type) where
  score : ℚ
  weight : ℚ
  weighted_contribution : ℚ
  details : α
  deriving DecidableEq, Repr, Inhabited

/-- `_generate_summary`, with the interpolated numbers as payloads and
string formatting abstracted away. -/
inductive Summary
  | excellent (overall : ℚ) (realCount : ℤ) (authenticCount : ℤ)
  | good (overall : ℚ)
  | moderate (overall : ℚ) (botCount : ℤ) (spamCount : ℤ)
  | low (overall : ℚ) (botCount : ℤ) (spamCount : ℤ)
  deriving DecidableEq, Repr, Inhabited

structure FraudReport where
  overall_score : ℚ
  pass_threshold : ℚ
  passed : Bool
  recommendation : String
  confidence : String
  followerBreakdown : SignalBreakdown FollowerResult
  engagementBreakdown : SignalBreakdown EngagementResult
  velocityBreakdown : SignalBreakdown VelocityResult
  geoBreakdown : SignalBreakdown GeoResult
  fraud_flags : List Flag
  summary : Summary
  deriving DecidableEq, Repr, Inhabited

/-- `FraudDetector._get_recommendation`. -/
def getRecommendation (score : ℚ) (flags : List Flag) : String :=
  if passThreshold ≤ score then
    if flags.length = 0 then "APPROVED_FOR_PAYMENT"
    else if flags.length ≤ 2 then "APPROVED_WITH_MINOR_CONCERNS"
    else "APPROVED_BUT_MONITOR"
  else if 80 ≤ score then "MANUAL_REVIEW_RECOMMENDED"
  else if 60 ≤ score then "HOLD_PAYMENT_PENDING_REVIEW"
  else "REJECT_PAYMENT_FRAUD_DETECTED"

/-- `FraudDetector._calculate_confidence`. The code compares
`variance ** 0.5` to `10` and `20`; over the nonnegative rationals this is
equivalent to comparing the variance to `100` and `400`. -/
def calculateConfidence (s1 s2 s3 s4 : ℚ) : String :=
  let avg := (s1 + s2 + s3 + s4) / 4
  let variance := ((s1 - avg) ^ 2 + (s2 - avg) ^ 2 + (s3 - avg) ^ 2 + (s4 - avg) ^ 2) / 4
  if variance < 100 then "HIGH"
  else if variance < 400 then "MEDIUM"
  else "LOW"

/-- `FraudDetector._generate_summary`. -/
def generateSummary (overallScore : ℚ) (fr : FollowerResult) (er : EngagementResult) : Summary :=
  if 95 ≤ overallScore then .excellent overallScore fr.real_count er.authentic_count
  else if 80 ≤ overallScore then .good overallScore
  else if 60 ≤ overallScore then .moderate overallScore fr.bot_count er.spam_count
  else .low overallScore fr.bot_count er.spam_count

/-- `FraudDetector.detect`; `now` models `datetime.now()`. `none` models
the `ZeroDivisionError` escaping from the geo analyzer. -/
def detect (postData : PostData) (now : ℚ) : Option FraudReport :=
  let followers := postData.followers.getD []
  let engagement := postData.engagement.getD {}
  let historicalAvg := postData.historical_avg_engagement.getD 5
  let influencerLocation := postData.influencer_location.getD "Unknown"
  let followerResult := followerAnalyze followers
  let engagementResult := engagementAnalyze engagement
  let velocityResult := velocityAnalyze engagement historicalAvg postData.post_timestamp now
  (geoAnalyze followers engagement influencerLocation).map fun geoResult =>
    let overallScore :=
      followerResult.score * weightFollower +
      engagementResult.score * weightEngagement +
      velocityResult.score * weightVelocity +
      geoResult.score * weightGeo
    let allFlags :=
      followerResult.flags ++ engagementResult.flags ++
      velocityResult.flags ++ geoResult.flags
    { overall_score := round2 overallScore
      pass_threshold := passThreshold
      passed := decide (passThreshold ≤ overallScore)
      recommendation := getRecommendation overallScore allFlags
      confidence := calculateConfidence followerResult.score engagementResult.score
        velocityResult.score geoResult.score
      followerBreakdown :=
        { score := followerResult.score, weight := weightFollower
          weighted_contribution := round2 (followerResult.score * weightFollower)
          details := followerResult }
      engagementBreakdown :=
        { score := engagementResult.score, weight := weightEngagement
          weighted_contribution := round2 (engagementResult.score * weightEngagement)
          details := engagementResult }
      velocityBreakdown :=
        { score := velocityResult.score, weight := weightVelocity
          weighted_contribution := round2 (velocityResult.score * weightVelocity)
          details := velocityResult }
      geoBreakdown :=
        { score := geoResult.score, weight := weightGeo
          weighted_contribution := round2 (geoResult.score * weightGeo)
          details := geoResult }
      fraud_flags := allFlags
      summary := generateSummary overallScore followerResult engagementResult }

/-- The overall weighted score of `FraudDetector.detect` before the final
`round(..., 2)` (lines 47-52 of `fraud_detector.py`); `0` in the
degenerate case where the geo analyzer raises and no score exists. -/
def overallRaw (postData : PostData) (now : ℚ) : ℚ :=
  let followers := postData.followers.getD []
  let engagement := postData.engagement.getD {}
  let historicalAvg := postData.historical_avg_engagement.getD 5
  let influencerLocation := postData.influencer_location.getD "Unknown"
  (geoAnalyze followers engagement influencerLocation).elim 0 fun geoResult =>
    (followerAnalyze followers).score * weightFollower +
    (engagementAnalyze engagement).score * weightEngagement +
    (velocityAnalyze engagement historicalAvg postData.post_timestamp now).score * weightVelocity +
    geoResult.score * weightGeo

/-! ### Spec-side definitions (formalising the claims' wording, to be
compared against the code-side definitions above) -/

/-- Spec rules 1-3 of §4.1: the per-rule definite-bot triggers (bot
username pattern, zero posts, suspicious location). -/
def definiteRuleTriggered (f : Follower) : Bool :=
  matchesBotPattern (f.username.getD "") ||
  (f.post_count.getD 1 == 0) ||
  decide (f.location.getD "" ∈ suspiciousLocations)

/-- Spec rules 4-7 of §4.1: how many of the four suspicious-only signals
(no profile picture, follow ratio > 10, new account with high following,
empty bio) a follower triggers. -/
def suspiciousReasonCount (f : Follower) : ℕ :=
  (if f.has_profile_pic.getD true = false then 1 else 0) +
  (if 0 < f.following_count.getD 0 ∧ 0 < f.follower_count.getD 1 ∧
      (10 : ℚ) < (f.following_count.getD 0 : ℚ) / (f.follower_count.getD 1 : ℚ)
   then 1 else 0) +
  (if f.account_age_days.getD 1000 < 30 ∧ 1000 < f.following_count.getD 0 then 1 else 0) +
  (if f.bio_length.getD 1 = 0 then 1 else 0)

/-- The claim's duplicate count: the sum over distinct lowercased comment
texts of `occurrence_count - 1` for texts occurring more than once. -/
def specDuplicateCount (texts : List String) : ℕ :=
  ∑ t ∈ texts.toFinset, (if 1 < texts.count t then texts.count t - 1 else 0)

/-- The claim's recommendation decision table, evaluated top to bottom
with first match winning. -/
def recommendationTable (score : ℚ) (flags : List Flag) : String :=
  if passThreshold ≤ score ∧ flags.length = 0 then "APPROVED_FOR_PAYMENT"
  else if passThreshold ≤ score ∧ flags.length ≤ 2 then "APPROVED_WITH_MINOR_CONCERNS"
  else if passThreshold ≤ score ∧ 2 < flags.length then "APPROVED_BUT_MONITOR"
  else if 80 ≤ score then "MANUAL_REVIEW_RECOMMENDED"
  else if 60 ≤ score then "HOLD_PAYMENT_PENDING_REVIEW"
  else "REJECT_PAYMENT_FRAUD_DETECTED"

/-! ### Concrete example inputs -/

/-- A follower record with every field absent. -/
def emptyFollower : Follower := {}

/-- An engagement record with every field absent (in particular no
comment list). -/
def emptyEngagement : Engagement := {}

/-- The degenerate input of the claims: no followers, no comments. -/
def pdEmpty : PostData :=
  { followers := some []
    engagement := some { likes := some 0, comments := some [], shares := some 0, saves := some 0 }
    historical_avg_engagement := some 5
    post_timestamp := 0
    influencer_location := some "Unknown" }

/-- A fully benign follower profile. -/
def realFollower (name : String) : Follower :=
  { username := some name, has_profile_pic := some true, post_count := some 5
    following_count := some 10, follower_count := some 100, bio_length := some 10
    account_age_days := some 365, location := some "United States" }

/-- A comment posted from the influencer's own region at instant 0. -/
def usComment (txt user : String) : Comment :=
  { text := some txt, username := some user, timestamp := some 0
    location := some "United States" }

/-- Seven comments: six authentic, one spam (`"follow me"` keyword), all
distinct, so the engagement score is `round(600/7, 2) = 85.71`. -/
def c2Comments : List Comment :=
  [usComment "what a wonderful photo from the trip" "ann",
   usComment "i really enjoyed reading about this" "ben",
   usComment "the colors in this shot are stunning" "carl",
   usComment "thank you for sharing your journey" "dora",
   usComment "this reminds us of our holiday in rome" "eve",
   usComment "such a beautiful view of the mountains" "frank",
   usComment "follow me please my friends" "gina"]

/-- Input whose unrounded overall score is `94.9985`: it rounds to the
pass threshold `95` while the pass comparison fails. -/
def pdC2 : PostData :=
  { followers := some [realFollower "alice", realFollower "bob"]
    engagement := some
      { likes := some 0, comments := some c2Comments, shares := some 0, saves := some 0 }
    historical_avg_engagement := some 21
    post_timestamp := 0
    influencer_location := some "United States" }

/-- A small input on which `detect` succeeds, used to exercise theorems
with hypotheses. -/
def pdSmall : PostData :=
  { followers := some [emptyFollower]
    engagement := some { likes := some 0, comments := some [], shares := some 0, saves := some 0 }
    historical_avg_engagement := some 5
    post_timestamp := 0
    influencer_location := some "United States" }

/-- Three comments, two of them identical, triggering the duplicate
penalty: all generic, so the score is `round(40 - 50/3, 2) = 23.33`. -/
def engC8 : Engagement :=
  { likes := some 0
    comments := some
      [usComment "xyzaa" "ann", usComment "xyzaa" "ben", usComment "qwert" "carl"]
    shares := some 0
    saves := some 0 }

/-! ### Helper lemmas -/

/-- `round2` in terms of `Int.floor` (they agree definitionally). -/
lemma round2_def (q : ℚ) : round2 q = (⌊q * 100 + 1 / 2⌋ : ℤ) / 100 := rfl

lemma round2_nonneg {q : ℚ} (h : 0 ≤ q) : 0 ≤ round2 q := by
  rw [round2_def]
  have h1 : (0 : ℚ) ≤ q * 100 + 1 / 2 := by linarith
  have h2 : (0 : ℤ) ≤ ⌊q * 100 + 1 / 2⌋ := Int.floor_nonneg.mpr h1
  have h3 : (0 : ℚ) ≤ (⌊q * 100 + 1 / 2⌋ : ℤ) := by exact_mod_cast h2
  positivity

lemma round2_le_hundred {q : ℚ} (h : q ≤ 100) : round2 q ≤ 100 := by
  rw [round2_def]
  have h1 : (⌊q * 100 + 1 / 2⌋ : ℤ) ≤ ⌊(100 : ℚ) * 100 + 1 / 2⌋ :=
    Int.floor_le_floor (by linarith)
  have h2 : (⌊(100 : ℚ) * 100 + 1 / 2⌋ : ℤ) = 10000 := by norm_num [Int.floor_eq_iff]
  rw [div_le_iff₀ (by norm_num : (0 : ℚ) < 100)]
  have h3 : (⌊q * 100 + 1 / 2⌋ : ℚ) ≤ 10000 := by exact_mod_cast h2 ▸ h1
  linarith

/-- Counting two mutually exclusive predicates never exceeds the length:
the second count only looks among elements failing the first test. -/
lemma countP_pair_le_length {α : Type} (l : List α) (p q : α → Bool) :
    l.countP p + l.countP (fun a => !p a && q a) ≤ l.length := by
  have h1 : l.countP (fun a => !p a && q a) ≤ l.countP (fun a => !p a) :=
    List.countP_mono_left (by intro a _ hb; simp at hb ⊢; exact hb.1)
  have h2 := List.length_eq_countP_add_countP (l := l) p
  have h3 : l.countP (fun a => decide ¬p a = true) = l.countP (fun a => !p a) := by
    apply List.countP_congr; intro a _; simp
  omega

lemma followerAnalyze_score_bounds (fs : List Follower) :
    0 ≤ (followerAnalyze fs).score ∧ (followerAnalyze fs).score ≤ 100 := by
  by_cases hne : fs = []
  · subst hne; decide
  · have hlen : 0 < fs.length := List.length_pos.mpr hne
    have hbs := countP_pair_le_length fs
      (fun f => (checkBotSignals f).is_definite_bot)
      (fun f => (checkBotSignals f).is_suspicious)
    unfold followerAnalyze
    rw [if_neg hne]
    dsimp only
    have hT : (0 : ℚ) < (fs.length : ℚ) := by exact_mod_cast hlen
    have hB : (0 : ℚ) ≤ (fs.countP (fun f => (checkBotSignals f).is_definite_bot) : ℚ) := by
      positivity
    have hS : (0 : ℚ) ≤ (fs.countP
        (fun f => !(checkBotSignals f).is_definite_bot && (checkBotSignals f).is_suspicious) : ℚ) := by
      positivity
    have hBS : (fs.countP (fun f => (checkBotSignals f).is_definite_bot) : ℚ) +
        (fs.countP (fun f => !(checkBotSignals f).is_definite_bot &&
          (checkBotSignals f).is_suspicious) : ℚ) ≤ (fs.length : ℚ) := by
      exact_mod_cast hbs
    refine ⟨round2_nonneg ?_, round2_le_hundred ?_⟩
    · refine mul_nonneg (div_nonneg ?_ hT.le) (by norm_num)
      push_cast
      linarith
    · rw [div_mul_eq_mul_div, div_le_iff₀ hT]
      push_cast
      linarith

lemma engagementAnalyze_score_bounds (eng : Engagement) :
    0 ≤ (engagementAnalyze eng).score ∧ (engagementAnalyze eng).score ≤ 100 := by
  unfold engagementAnalyze
  by_cases hne : eng.comments.getD [] = []
  · rw [if_pos hne]; norm_num
  · rw [if_neg hne]
    dsimp only
    exact ⟨round2_nonneg (le_max_left _ _),
      round2_le_hundred (max_le (by norm_num) (min_le_left _ _))⟩

lemma velocityAnalyze_score_cases (eng : Engagement) (h ts now : ℚ) :
    (velocityAnalyze eng h ts now).score = 40 ∨ (velocityAnalyze eng h ts now).score = 50 ∨
    (velocityAnalyze eng h ts now).score = 60 ∨ (velocityAnalyze eng h ts now).score = 70 ∨
    (velocityAnalyze eng h ts now).score = 80 ∨ (velocityAnalyze eng h ts now).score = 90 ∨
    (velocityAnalyze eng h ts now).score = 100 := by
  unfold velocityAnalyze
  dsimp only
  split_ifs <;> decide

lemma calculateAlignment_score_bounds (locs expected : List String) :
    0 ≤ (calculateAlignment locs expected).score ∧
      (calculateAlignment locs expected).score ≤ 100 := by
  unfold calculateAlignment
  dsimp only
  split_ifs <;> norm_num

lemma geoAnalyze_score_bounds (fs : List Follower) (eng : Engagement) (loc : String)
    (r : GeoResult) (h : geoAnalyze fs eng loc = some r) :
    0 ≤ r.score ∧ r.score ≤ 100 := by
  unfold geoAnalyze at h
  dsimp only at h
  split at h
  · exact absurd h (by simp)
  · rw [Option.some.injEq] at h
    subst h
    dsimp only
    have hfa := calculateAlignment_score_bounds
      (fs.map fun f => f.location.getD "Unknown") (expectedRegionsFor loc)
    have hea := calculateAlignment_score_bounds
      ((eng.comments.getD []).map fun c => c.location.getD "Unknown") (expectedRegionsFor loc)
    have hpen : (0 : ℚ) ≤ min 30
        ((((fs.map fun f => f.location.getD "Unknown").countP (fun loc => loc ∈ botFarmCountries) : ℚ) +
          (((eng.comments.getD []).map fun c => c.location.getD "Unknown").countP
            (fun loc => loc ∈ botFarmCountries) : ℚ)) /
          ((fs.length : ℚ) + ((eng.comments.getD []).length : ℚ)) * 100) :=
      le_min (by norm_num) (by positivity)
    refine ⟨round2_nonneg (le_max_left _ _), round2_le_hundred (max_le (by norm_num) ?_)⟩
    linarith [hfa.1, hfa.2, hea.1, hea.2]

/-! ### Claim theorems -/

/-- C1: the spec promises that the all-empty input (no followers, no
comments) yields a fully populated report with follower score 0 and
engagement score 50 and raises no exception.  The follower and engagement
analyzers do behave as promised, but `GeoLocationChecker.analyze` divides
by `len(followers) + len(comments)` when computing the bot-farm penalty, so
the code raises `ZeroDivisionError` (modelled by `none`) and `detect`
produces no report at all. -/
theorem claim_C1 :
    detect pdEmpty 0 = none ∧
    geoAnalyze [] (pdEmpty.engagement.getD {}) "Unknown" = none ∧
    followerAnalyze [] =
      { score := 0, real_count := 0, bot_count := 0, suspicious_count := 0
        total_analyzed := none, authenticity_percentage := none
        flags := [.noFollowers] } ∧
    engagementAnalyze (pdEmpty.engagement.getD {}) =
      { score := 50, authentic_count := 0, spam_count := 0, generic_count := 0
        duplicate_count := none, total_analyzed := 0, quality_percentage := none
        flags := [.noComments] } := by
  decide

/-- C3: a follower is finally classified as a definite bot exactly when
one of the three definite rules (bot username pattern, zero posts,
suspicious location) fires, or when at least three of the four
suspicious-only reasons (rules 4-7) fire.  The code escalates on
`len(reasons) >= 3` counting all seven reasons, but whenever fewer than
three suspicious reasons fire the escalation can only trigger together
with a definite rule, so the classifications coincide. -/
theorem claim_C3 (f : Follower) :
    (checkBotSignals f).is_definite_bot =
      (definiteRuleTriggered f || decide (3 ≤ suspiciousReasonCount f)) := by
  unfold checkBotSignals definiteRuleTriggered suspiciousReasonCount
  by_cases h1 : matchesBotPattern (f.username.getD "") = true <;>
  by_cases h2 : f.has_profile_pic.getD true = false <;>
  by_cases h3 : f.post_count.getD 1 = 0 <;>
  by_cases h4 : (0 < f.following_count.getD 0 ∧ 0 < f.follower_count.getD 1 ∧
    (10 : ℚ) < (f.following_count.getD 0 : ℚ) / (f.follower_count.getD 1 : ℚ)) <;>
  by_cases h5 : (f.account_age_days.getD 1000 < 30 ∧ 1000 < f.following_count.getD 0) <;>
  by_cases h6 : f.bio_length.getD 1 = 0 <;>
  by_cases h7 : f.location.getD "" ∈ suspiciousLocations <;>
  simp [h1, h2, h3, h4, h5, h6, h7]

/-- C4 counterexample: with `historical_avg = 1/2` the value actually
used (exposed in the report's `historical_average` field, which the code
rounds from the mutated variable) is `1/2`, not `max(1/2, 1) = 1`: the
guard replaces only an exactly-zero average, it does not clamp values
strictly between 0 and 1. -/
theorem claim_C4_counterexample :
    (velocityAnalyze emptyEngagement (1 / 2) 0 0).historical_average = 1 / 2 ∧
    ¬ ((1 : ℚ) / 2 = max (1 / 2) 1) := by
  decide

/-- C4 amended: the historical average actually used in the ratio and
sigma computations equals the input unless the input is exactly `0`, in
which case it is `1` (`usedHistoricalAvg`); sub-unit and negative values
pass through unchanged. -/
theorem claim_C4 (eng : Engagement) (h ts now : ℚ) :
    (velocityAnalyze eng h ts now).historical_average = round2 (usedHistoricalAvg h) ∧
    (velocityAnalyze eng h ts now).velocity_ratio =
      round2 (currentVelocityOf eng ts now / usedHistoricalAvg h) ∧
    (velocityAnalyze eng h ts now).standard_deviations =
      round2 (if 0 < usedHistoricalAvg h * (3 / 10)
        then |currentVelocityOf eng ts now - usedHistoricalAvg h| /
          (usedHistoricalAvg h * (3 / 10))
        else 0) :=
  ⟨rfl, rfl, rfl⟩

/-- C6: `FraudDetector._get_recommendation` implements exactly the
spec's decision table, evaluated top to bottom with first match
winning. -/
theorem claim_C6 (s : ℚ) (flags : List Flag) :
    getRecommendation s flags = recommendationTable s flags := by
  unfold getRecommendation recommendationTable
  by_cases hp : passThreshold ≤ s
  · by_cases h0 : flags.length = 0
    · simp [hp, h0]
    · by_cases h2 : flags.length ≤ 2
      · simp [hp, h0, h2]
      · simp [hp, h0, h2, Nat.lt_of_not_le (fun hc => h2 hc)]
  · simp [hp]

/-- C10: a follower record with every field absent triggers no bot or
suspicious rule — the defaults (`has_profile_pic` true, `post_count` 1,
`bio_length` 1, `account_age_days` 1000, `follower_count` 1) are benign —
so such a follower is counted in the real bucket. -/
theorem claim_C10 :
    checkBotSignals emptyFollower =
      { is_definite_bot := false, is_suspicious := false, reasons := [] } ∧
    followerAnalyze [emptyFollower] =
      { score := 100, real_count := 1, bot_count := 0, suspicious_count := 0
        total_analyzed := some 1, authenticity_percentage := some 100
        flags := [] } := by
  decide

/-- C9: the velocity score is always one of the seven discrete values
`40, 50, 60, 70, 80, 90, 100`; in particular it is never below 40 no
matter how anomalous the engagement is. -/
theorem claim_C9 (eng : Engagement) (h ts now : ℚ) :
    (velocityAnalyze eng h ts now).score ∈ ([40, 50, 60, 70, 80, 90, 100] : List ℚ) := by
  rcases velocityAnalyze_score_cases eng h ts now with hc | hc | hc | hc | hc | hc | hc <;>
    rw [hc] <;> decide

/-- C7: every analyzer score lies in `[0, 100]` — except that on the
empty-followers/empty-comments input the geo analyzer raises
`ZeroDivisionError` (first conjunct, `none`) instead of returning any
result; on every input where it does return, its score is in range. -/
theorem claim_C7 :
    geoAnalyze [] emptyEngagement "United States" = none ∧
    (∀ fs, 0 ≤ (followerAnalyze fs).score ∧ (followerAnalyze fs).score ≤ 100) ∧
    (∀ eng, 0 ≤ (engagementAnalyze eng).score ∧ (engagementAnalyze eng).score ≤ 100) ∧
    (∀ eng h ts now, 0 ≤ (velocityAnalyze eng h ts now).score ∧
      (velocityAnalyze eng h ts now).score ≤ 100) ∧
    (∀ fs eng loc r, geoAnalyze fs eng loc = some r → 0 ≤ r.score ∧ r.score ≤ 100) := by
  refine ⟨by decide, followerAnalyze_score_bounds, engagementAnalyze_score_bounds,
    ?_, geoAnalyze_score_bounds⟩
  intro eng h ts now
  rcases velocityAnalyze_score_cases eng h ts now with hc | hc | hc | hc | hc | hc | hc <;>
    rw [hc] <;> norm_num

/-- Witness for C7: the geo analyzer succeeds on one follower from the
influencer's own region, and its score is within bounds. -/
theorem claim_C7_witness :
    0 ≤ ((geoAnalyze [emptyFollower] emptyEngagement "United States").getD default).score ∧
    ((geoAnalyze [emptyFollower] emptyEngagement "United States").getD default).score ≤ 100 :=
  claim_C7.2.2.2.2 [emptyFollower] emptyEngagement "United States"
    ((geoAnalyze [emptyFollower] emptyEngagement "United States").getD default) (by decide)

/-- Summing `g` over the elements satisfying `P` is summing
`if P t then g t else 0` over all elements. -/
lemma sum_map_ite_eq_filter {α : Type} (P : α → Prop) [DecidablePred P] (g : α → ℕ)
    (L : List α) :
    (L.map (fun t => if P t then g t else 0)).sum =
      ((L.filter (fun t => decide (P t))).map g).sum := by
  induction L with
  | nil => rfl
  | cons a L ih => by_cases h : P a <;> simp [List.filter_cons, h, ih]

/-- A sum over `l.toFinset` is a sum over the deduplicated list. -/
lemma toFinset_sum_eq (l : List String) (f : String → ℕ) :
    ∑ t ∈ l.toFinset, f t = (l.dedup.map f).sum := by
  rw [List.toFinset, Finset.sum]
  simp [Multiset.map_coe, Multiset.sum_coe]

/-- The claim's duplicate-count formula agrees with the code's
`_find_duplicates` followed by `sum(...)`. -/
lemma specDuplicateCount_eq (texts : List String) :
    specDuplicateCount texts = findDuplicatesSum texts := by
  unfold specDuplicateCount findDuplicatesSum
  rw [toFinset_sum_eq, sum_map_ite_eq_filter (fun t => 1 < texts.count t)]

/-- C8: on a non-empty comment list, the reported `duplicate_count` is
the sum over distinct lowercased texts of `occurrence - 1` for texts
occurring more than once, and the score is the weighted score minus the
penalty `min(20, duplicate_ratio * 50)` applied exactly when duplicates
exceed 10% of the total, clamped to `[0, 100]` and rounded. -/
theorem claim_C8 (eng : Engagement) (hne : eng.comments.getD [] ≠ []) :
    (engagementAnalyze eng).duplicate_count =
      some ((specDuplicateCount (commentTextsOf eng) : ℕ) : ℤ) ∧
    (engagementAnalyze eng).score =
      round2 (max 0 (min 100 (engagementWeightedScore eng -
        (if ((eng.comments.getD []).length : ℚ) * (1 / 10) <
            (specDuplicateCount (commentTextsOf eng) : ℚ)
         then min 20 ((specDuplicateCount (commentTextsOf eng) : ℚ) /
           ((eng.comments.getD []).length : ℚ) * 50)
         else 0)))) := by
  have hdc := specDuplicateCount_eq (commentTextsOf eng)
  unfold engagementAnalyze
  dsimp only
  rw [if_neg hne]
  rw [hdc]
  constructor
  · rfl
  · dsimp only
    split_ifs with hd
    · rfl
    · rw [sub_zero]

/-- Witness for C8: three comments with one duplicated text give
`duplicate_count = 1 > 0.3` and score
`round(40 - min(20, 50/3), 2) = 23.33`. -/
theorem claim_C8_witness :
    (engagementAnalyze engC8).duplicate_count = some 1 ∧
    (engagementAnalyze engC8).score = 2333 / 100 := by
  have h := claim_C8 engC8 (by decide)
  exact ⟨h.1.trans (by decide), h.2.trans (by decide)⟩

/-- C2 counterexample: on `pdC2` the unrounded overall score is
`94.9985`, so `passed` is `false`, yet the report's `overall_score`
field is the rounded `95`, equal to the report's own `pass_threshold`.
The claim `passed = (overall_score ≥ pass_threshold)`, read on the
report's own fields, is therefore false. -/
theorem claim_C2_counterexample :
    (detect pdC2 0).map FraudReport.passed = some false ∧
    (detect pdC2 0).map FraudReport.overall_score = some 95 ∧
    (detect pdC2 0).map FraudReport.pass_threshold = some 95 := by
  refine ⟨by decide, by decide, by decide⟩

/-- C2 amended: `passed` equals the comparison of the *unrounded*
weighted overall score with the threshold, while the `overall_score`
field stores that score rounded to two decimals; the two disagree when
the raw score falls in `[94.995, 95)`. -/
theorem claim_C2 (pd : PostData) (now : ℚ) (r : FraudReport)
    (h : detect pd now = some r) :
    r.passed = decide (passThreshold ≤ overallRaw pd now) ∧
    r.overall_score = round2 (overallRaw pd now) := by
  simp only [detect] at h
  rw [Option.map_eq_some'] at h
  obtain ⟨g, hg, hr⟩ := h
  simp only [overallRaw, hg, Option.elim_some]
  subst hr
  exact ⟨rfl, rfl⟩

/-- Witness for C2 (amended): `detect` succeeds on `pdSmall` and the
theorem's equations evaluate there. -/
theorem claim_C2_witness :
    ((detect pdSmall 0).getD default).passed =
      decide (passThreshold ≤ overallRaw pdSmall 0) ∧
    ((detect pdSmall 0).getD default).overall_score =
      round2 (overallRaw pdSmall 0) :=
  claim_C2 pdSmall 0 ((detect pdSmall 0).getD default) (by decide)

set_option maxRecDepth 8000 in
/-- C5 counterexample: with identical `PostData` and configuration,
`detect` invoked at two different wall-clock instants returns different
reports (the velocity analysis depends on `datetime.now()`), refuting
clock independence. -/
theorem claim_C5_counterexample : detect pdC2 0 ≠ detect pdC2 360000 := by
  decide

/-- C5 amended: `detect` is a pure function of the `PostData`, the
configuration and the invocation instant; the follower, engagement and
geo breakdown entries do not depend on the instant — only the velocity
signal (and whatever is derived from it) does. -/
theorem claim_C5 (pd : PostData) (t₁ t₂ : ℚ) (r₁ r₂ : FraudReport)
    (h₁ : detect pd t₁ = some r₁) (h₂ : detect pd t₂ = some r₂) :
    r₁.followerBreakdown = r₂.followerBreakdown ∧
    r₁.engagementBreakdown = r₂.engagementBreakdown ∧
    r₁.geoBreakdown = r₂.geoBreakdown := by
  simp only [detect] at h₁ h₂
  rw [Option.map_eq_some'] at h₁ h₂
  obtain ⟨g₁, hg₁, hr₁⟩ := h₁
  obtain ⟨g₂, hg₂, hr₂⟩ := h₂
  rw [hg₁] at hg₂
  injection hg₂ with e
  subst e
  subst hr₁
  subst hr₂
  exact ⟨rfl, rfl, rfl⟩

/-- Witness for C5 (amended): on `pdSmall`, invocations at instants `0`
and `7200` share the follower, engagement and geo breakdowns. -/
theorem claim_C5_witness :
    ((detect pdSmall 0).getD default).followerBreakdown =
      ((detect pdSmall 7200).getD default).followerBreakdown ∧
    ((detect pdSmall 0).getD default).engagementBreakdown =
      ((detect pdSmall 7200).getD default).engagementBreakdown ∧
    ((detect pdSmall 0).getD default).geoBreakdown =
      ((detect pdSmall 7200).getD default).geoBreakdown :=
  claim_C5 pdSmall 0 7200 ((detect pdSmall 0).getD default)
    ((detect pdSmall 7200).getD default) (by decide) (by decide)

end QubicPay
